import Mathlib

/-
Shallow embedding of src/src/memex/views.py, the HTTP view layer of the
memex annotation storage service, together with proofs of the claims about
its behaviour.

Conventions of the embedding:
  - Python exceptions become Except values; a handler that can fail returns
    an Except together with a Trace of its side effects.
  - The external collaborators (schema validator, storage gateway, search
    gateway, route generator) are fields of the request structures, so the
    theorems quantify over every possible collaborator behaviour.
  - The Python Annotation model is called Annot here.
-/

namespace Memex

/-- A stored annotation record, as seen by the view layer: an opaque id,
the target URI and the group identifier. -/
structure Annot where
  id : String
  target_uri : String
  groupid : String
deriving Repr, DecidableEq

/-- The event handed to the publisher. In views.py the constructor call is
AnnotationEvent(request, annotation.id, action): the event receives only the
id string of the record and the action kind, never the record itself. -/
structure AnnotationEvent where
  annotation_id : String
  action : String
deriving Repr, DecidableEq

/-- Trace of the side effects of one request: which records were created,
updated and deleted through the storage gateway, and which events were
handed to the publisher, split by channel. The immediate channel would
correspond to a plain notify call; views.py only ever uses
request.notify_after_commit, which fills the after-commit channel. -/
structure Trace where
  created : List Annot
  updated : List String
  deleted : List String
  immediate_events : List AnnotationEvent
  after_commit_events : List AnnotationEvent
deriving Repr, DecidableEq

/-- The empty trace: no storage mutation, no event. -/
def Trace.empty : Trace := ⟨[], [], [], [], []⟩

/-- Modelled from the spec: request.notify_after_commit registers the event
on the post-commit notification mechanism, so it fires only once the
enclosing transaction is scheduled to commit. The mechanism itself lives
outside src; here it appends to the after-commit channel of the trace. -/
def notify_after_commit (t : Trace) (e : AnnotationEvent) : Trace :=
  { t with after_commit_events := t.after_commit_events ++ [e] }

/-- Embeds views._publish_annotation_event: builds an AnnotationEvent from
the id of the given record and the action, and hands it to
notify_after_commit. Only the id field of the record is used. -/
def publish_annotation_event (t : Trace) (a : Annot) (action : String) : Trace :=
  notify_after_commit t (AnnotationEvent.mk a.id action)

/-- Embeds views.APIError: a message and a status code (default 500). -/
structure APIError where
  message : String
  status_code : Nat
deriving Repr, DecidableEq

/-- An APIError built with only a message, taking the default status 500. -/
def APIError.of_message (message : String) : APIError := ⟨message, 500⟩

/-- The fixed message of PayloadError. -/
def payload_error_message : String :=
  "Expected a valid JSON payload, but none was found!"

/-- Embeds views.PayloadError: an APIError with the fixed message and
status code 400. -/
def PayloadError : APIError := ⟨payload_error_message, 400⟩

/-- Embeds schemas.ValidationError as far as the view layer sees it: an
error carrying a message. -/
structure ValidationError where
  message : String
deriving Repr, DecidableEq

/-- The two exception kinds a handler body can raise. -/
inductive Err where
  | api (e : APIError)
  | validation (e : ValidationError)
deriving Repr, DecidableEq

/-- The client-facing rendering of an error: HTTP status code plus the two
fields of the JSON envelope. -/
structure ErrorResponse where
  status_code : Nat
  status : String
  reason : String
deriving Repr, DecidableEq

/-- Embeds views.error_api: renders an APIError at its own status code. -/
def error_api (context : APIError) : ErrorResponse :=
  ⟨context.status_code, "failure", context.message⟩

/-- Embeds views.error_validation: renders a ValidationError at status 400. -/
def error_validation (context : ValidationError) : ErrorResponse :=
  ⟨400, "failure", context.message⟩

/-- The centralized dispatch of a raised error to its renderer. -/
def render_error : Err → ErrorResponse
  | .api e => error_api e
  | .validation e => error_validation e

/-- Embeds views._json_payload: the body is some parsed payload, or none
when request.json_body raises ValueError; then PayloadError is raised. -/
def json_payload (body : Option String) : Except APIError String :=
  match body with
  | some p => Except.ok p
  | none => Except.error PayloadError

/-- Embeds memex.resources.AnnotationResource as far as the view layer
uses it: a per-request wrapper around the record, with resolved context. -/
structure AnnotationResource where
  annot : Annot
deriving Repr, DecidableEq

/-- A presented representation: which presenter produced it and the id of
the presented record. -/
structure Presented where
  presenter : String
  annot_id : String
deriving Repr, DecidableEq

/-- Modelled from the spec: AnnotationJSONPresenter.asdict produces the
public JSON representation of the wrapped record (the presenters module is
not under src); here it is tagged with the presenter kind and the id. -/
def AnnotationJSONPresenter_asdict (r : AnnotationResource) : Presented :=
  ⟨"json", r.annot.id⟩

/-- Modelled from the spec: AnnotationJSONLDPresenter.asdict produces the
linked-data representation, structurally different from the JSON one. -/
def AnnotationJSONLDPresenter_asdict (r : AnnotationResource) : Presented :=
  ⟨"jsonld", r.annot.id⟩

/-- Modelled from the spec: AnnotationJSONLDPresenter.CONTEXT_URL, the
fixed context URL constant of the JSON-LD presenter. -/
def CONTEXT_URL : String := "http://www.w3.org/ns/anno.jsonld"

/-- The inputs of views.create: the request body (none when it is not
parseable JSON), the validator obtained from CreateAnnotationSchema, and
the storage gateway function storage.create_annotation. -/
structure CreateRequest where
  json_body : Option String
  validate : String → Except ValidationError String
  create_annot : String → Annot

/-- Embeds views.create: parse the JSON payload, validate it against the
create schema, persist through the storage gateway, publish a create event
through notify_after_commit, and return the presented record. -/
def create (req : CreateRequest) : Except Err Presented × Trace :=
  match json_payload req.json_body with
  | .error e => (.error (.api e), Trace.empty)
  | .ok payload =>
    match req.validate payload with
    | .error v => (.error (.validation v), Trace.empty)
    | .ok appstruct =>
      let a := req.create_annot appstruct
      let t := { Trace.empty with created := [a] }
      let t := publish_annotation_event t a "create"
      (.ok (AnnotationJSONPresenter_asdict ⟨a⟩), t)

/-- Embeds views.read: present the resolved context with the plain JSON
presenter; no side effect. -/
def read (context : AnnotationResource) : Presented × Trace :=
  (AnnotationJSONPresenter_asdict context, Trace.empty)

/-- The response of views.read_jsonld: the content type, its profile
parameter and the presented body. -/
structure JsonLdResponse where
  content_type : String
  profile : String
  body : Presented
deriving Repr, DecidableEq

/-- Embeds views.read_jsonld: set the content type to application/ld+json
with the profile parameter equal to the CONTEXT_URL constant of the JSON-LD
presenter, and present the context with the JSON-LD presenter; no side
effect. -/
def read_jsonld (context : AnnotationResource) : JsonLdResponse × Trace :=
  (⟨"application/ld+json", CONTEXT_URL,
    AnnotationJSONLDPresenter_asdict context⟩, Trace.empty)

/-- The inputs of views.update: the request body, the validator obtained
from UpdateAnnotationSchema(request, target_uri, groupid) (a function of
the two schema parameters and the payload), and the storage gateway
function storage.update_annotation (a function of the record id and the
validated payload). -/
structure UpdateRequest where
  json_body : Option String
  validate : String → String → String → Except ValidationError String
  update_annot : String → String → Annot

/-- Embeds views.update: build the update schema from the existing target
URI and group id of the context, parse and validate the payload, persist
through the storage gateway, publish an update event carrying the id of
the new state, and return the presented updated record. -/
def update (context : AnnotationResource) (req : UpdateRequest) :
    Except Err Presented × Trace :=
  match json_payload req.json_body with
  | .error e => (.error (.api e), Trace.empty)
  | .ok payload =>
    match req.validate context.annot.target_uri context.annot.groupid payload with
    | .error v => (.error (.validation v), Trace.empty)
    | .ok appstruct =>
      let a := req.update_annot context.annot.id appstruct
      let t := { Trace.empty with updated := [context.annot.id] }
      let t := publish_annotation_event t a "update"
      (.ok (AnnotationJSONPresenter_asdict ⟨a⟩), t)

/-- The body of the delete response. -/
structure DeleteResponse where
  id : String
  deleted : Bool
deriving Repr, DecidableEq

/-- Embeds views.delete: delete through the storage gateway, publish a
delete event for the original record through publish_annotation_event, and
return the id with a deleted flag. -/
def delete (context : AnnotationResource) : DeleteResponse × Trace :=
  let t := { Trace.empty with deleted := [context.annot.id] }
  let t := publish_annotation_event t context.annot "delete"
  (⟨context.annot.id, true⟩, t)

/-- The query parameter multidict: an ordered list of key-value pairs. -/
def MultiDict := List (String × String)

instance : DecidableEq MultiDict := by
  unfold MultiDict
  infer_instance

/-- Looks up the value of a key in a multidict, returning the most recently
added value, as WebOb getitem does; none when the key is absent. -/
def md_lookup : MultiDict → String → Option String
  | [], _ => none
  | (k, v) :: rest, key =>
    match md_lookup rest key with
    | some w => some w
    | none => if k = key then some v else none

/-- Removes every pair with the given key from a multidict. -/
def md_erase (m : MultiDict) (key : String) : MultiDict :=
  m.filter (fun kv => kv.1 ≠ key)

/-- Models MultiDict.pop(key, default): the looked-up value together with
the dict with the key removed. A none first component stands for the
Python default False used at the call site in views.search. -/
def md_pop (m : MultiDict) (key : String) : Option String × MultiDict :=
  (md_lookup m key, md_erase m key)

/-- Models request.params.copy(): an independent value holding the same
pairs, so mutating the copy leaves the request collection unchanged. -/
def md_copy (m : MultiDict) : MultiDict := m

/-- Python truthiness of the popped parameter value: the default False and
the empty string are falsy, every other string is truthy. -/
def truthy : Option String → Bool
  | none => false
  | some s => !s.isEmpty

/-- Embeds memex.search.Search(...).run(params): a total count and the
ordered id lists of top-level annotations and replies. -/
structure SearchResult where
  total : Nat
  annotation_ids : List String
  reply_ids : List String
deriving Repr, DecidableEq

/-- The inputs of views.search: the request params, the search gateway (a
function of the separate-replies flag value and the query it receives),
and the database record lookup used by fetch_ordered_annotations. -/
structure SearchRequest where
  params : MultiDict
  gateway : Option String → MultiDict → SearchResult
  db : String → Annot

/-- The search response body: total, rows, and the optional replies key
(none means the key is absent from the response). -/
structure SearchOut where
  total : Nat
  rows : List Presented
  replies : Option (List Presented)
deriving Repr, DecidableEq

/-- Modelled from the spec: storage.fetch_ordered_annotations returns the
records for the given ids in the input order (the storage module is not
under src; its name and the spec fix the order contract). -/
def fetch_ordered_annotations (db : String → Annot) (ids : List String) :
    List Annot :=
  ids.map db

/-- Embeds views._present_annotations: fetch the records for the ids in
order and present each with the plain JSON presenter. -/
def present_annotations (db : String → Annot) (ids : List String) :
    List Presented :=
  (fetch_ordered_annotations db ids).map
    (fun a => AnnotationJSONPresenter_asdict ⟨a⟩)

/-- Embeds views.search: copy the request params, pop the
_separate_replies key from the copy, run the search gateway on the popped
copy, and assemble total and rows, adding the replies key only when the
popped value is truthy. The second component of the result is the request
params collection as the handler leaves it. -/
def search (req : SearchRequest) : SearchOut × MultiDict :=
  let params := md_copy req.params
  let popped := md_pop params "_separate_replies"
  let separate_replies := popped.1
  let params := popped.2
  let result := req.gateway separate_replies params
  let out : SearchOut :=
    ⟨result.total, present_annotations req.db result.annotation_ids, none⟩
  let out :=
    if truthy separate_replies then
      { out with replies := some (present_annotations req.db result.reply_ids) }
    else out
  (out, req.params)

/-- Fuel-driven replacement of every non-overlapping occurrence of pat by
rep, left to right, as Python str.replace does for a nonempty pattern. The
fuel is instantiated with the length of the subject, which each step
consumes no faster than it consumes fuel. -/
def replace_go : Nat → List Char → List Char → List Char → List Char
  | 0, s, _, _ => s
  | _ + 1, [], _, _ => []
  | n + 1, c :: rest, pat, rep =>
    if pat ≠ [] ∧ pat.isPrefixOf (c :: rest) then
      rep ++ replace_go n ((c :: rest).drop pat.length) pat rep
    else
      c :: replace_go n rest pat rep

/-- Models Python str.replace(pat, rep) for a nonempty pattern: replaces
every non-overlapping occurrence, left to right. -/
def py_replace (s pat rep : String) : String :=
  String.mk (replace_go s.data.length s.data pat.data rep.data)

/-- One entry of the API descriptor document. -/
structure IndexLink where
  method : String
  url : String
  desc : String
deriving Repr, DecidableEq

/-- The API descriptor document returned by views.index. -/
structure IndexOut where
  message : String
  link_create : IndexLink
  link_read : IndexLink
  link_update : IndexLink
  link_delete : IndexLink
  link_search : IndexLink
deriving Repr, DecidableEq

/-- The inputs of views.index: the route URL generators of the request.
route_url_annot is request.route_url applied to the api.annotation route
and an id value. -/
structure IndexRequest where
  route_url_annots : String
  route_url_annot : String → String
  route_url_search : String

/-- Embeds views.index: generate the api.annotation route URL with the
literal id 123, replace every occurrence of 123 in it by a colon-id
placeholder, and return the descriptor, the read, update and delete
entries all sharing that templated URL. -/
def index (req : IndexRequest) : IndexOut :=
  let annotation_url := py_replace (req.route_url_annot "123") "123" ":id"
  { message := "Annotator Store API"
    link_create := ⟨"POST", req.route_url_annots, "Create a new annotation"⟩
    link_read := ⟨"GET", annotation_url, "Get an existing annotation"⟩
    link_update := ⟨"PUT", annotation_url, "Update an existing annotation"⟩
    link_delete := ⟨"DELETE", annotation_url, "Delete an annotation"⟩
    link_search := ⟨"GET", req.route_url_search, "Basic search API"⟩ }

/-- Whether an Except value is a success. -/
def exceptOk {ε α : Type _} : Except ε α → Bool
  | .ok _ => true
  | .error _ => false

/-- Looking up the erased key in an erased multidict yields nothing. -/
theorem md_lookup_erase (m : MultiDict) (k : String) :
    md_lookup (md_erase m k) k = none := by
  induction m with
  | nil => rfl
  | cons kv rest ih =>
    by_cases hk : kv.1 = k
    · simpa [md_erase, List.filter_cons, hk] using ih
    · have h2 : md_erase (kv :: rest) k = kv :: md_erase rest k := by
        simp [md_erase, List.filter_cons, hk]
      rw [h2]
      simp only [md_lookup]
      rw [ih]
      simp [hk]

/-- C3: every error raised by a handler is rendered as the uniform envelope
with status failure and the error message as reason, at HTTP status 400 for
validation errors, at the error status code for an APIError (which defaults
to 500), independent of which handler raised it. -/
theorem error_envelope_uniform :
    (∀ e : APIError, error_api e = ⟨e.status_code, "failure", e.message⟩)
  ∧ (∀ v : ValidationError, error_validation v = ⟨400, "failure", v.message⟩)
  ∧ (∀ m : String, (APIError.of_message m).status_code = 500)
  ∧ PayloadError.status_code = 400
  ∧ (∀ err : Err, (render_error err).status = "failure"
      ∧ (render_error err).reason
          = (match err with
             | .api e => e.message
             | .validation v => v.message)) := by
  refine ⟨fun e => rfl, fun v => rfl, fun m => rfl, rfl, fun err => ?_⟩
  cases err <;> exact ⟨rfl, rfl⟩

/-- C4: a create or update request whose body is not parseable JSON fails
with PayloadError, whose status code is 400 and whose message is the fixed
string, and the rendered response is the failure envelope carrying exactly
that message. -/
theorem payload_error_responses (creq : CreateRequest)
    (c : AnnotationResource) (ureq : UpdateRequest)
    (hc : creq.json_body = none) (hu : ureq.json_body = none) :
    (create creq).1 = .error (.api PayloadError)
  ∧ (update c ureq).1 = .error (.api PayloadError)
  ∧ PayloadError.status_code = 400
  ∧ PayloadError.message = "Expected a valid JSON payload, but none was found!"
  ∧ render_error (.api PayloadError)
      = ⟨400, "failure", "Expected a valid JSON payload, but none was found!"⟩ := by
  refine ⟨?_, ?_, rfl, rfl, rfl⟩
  · unfold create json_payload
    rw [hc]
  · unfold update json_payload
    rw [hu]

/-- A create request whose body fails to parse as JSON. -/
def creq_bad : CreateRequest :=
  ⟨none, fun p => .ok p, fun _ => ⟨"a1", "http://example.com/page", "g1"⟩⟩

/-- An update request whose body fails to parse as JSON. -/
def ureq_bad : UpdateRequest :=
  ⟨none, fun _ _ p => .ok p, fun i _ => ⟨i, "http://example.com/page", "g1"⟩⟩

/-- A resolved context holding a concrete record. -/
def res0 : AnnotationResource := ⟨⟨"a1", "http://example.com/page", "g1"⟩⟩

/-- Witness for C4 at a concrete unparseable-body request. -/
theorem payload_error_responses_witness :
    (create creq_bad).1 = .error (.api PayloadError)
  ∧ (update res0 ureq_bad).1 = .error (.api PayloadError)
  ∧ PayloadError.status_code = 400
  ∧ PayloadError.message = "Expected a valid JSON payload, but none was found!"
  ∧ render_error (.api PayloadError)
      = ⟨400, "failure", "Expected a valid JSON payload, but none was found!"⟩ :=
  payload_error_responses creq_bad res0 ureq_bad rfl rfl

/-- C7: the JSON-LD read handler sets the content type to
application/ld+json with the profile parameter equal to the fixed
CONTEXT_URL constant of the JSON-LD presenter, produces the body with the
JSON-LD presenter rather than the plain JSON one, and performs no
mutation. -/
theorem read_jsonld_spec (c : AnnotationResource) :
    (read_jsonld c).1.content_type = "application/ld+json"
  ∧ (read_jsonld c).1.profile = CONTEXT_URL
  ∧ (read_jsonld c).1.body = AnnotationJSONLDPresenter_asdict c
  ∧ (read_jsonld c).1.body ≠ AnnotationJSONPresenter_asdict c
  ∧ (read_jsonld c).2 = Trace.empty := by
  refine ⟨rfl, rfl, rfl, ?_, rfl⟩
  intro h
  have h2 : "jsonld" = "json" := congrArg Presented.presenter h
  exact absurd h2 (by decide)

/-- C1: refutation at a concrete input. The delete handler passes the
record to publish_annotation_event, but that function builds the event
from the id alone, so the published event holds only the id string and the
action: the target URI and group id of the pre-deletion record are absent,
and two records sharing an id but differing in target URI and group
produce identical traces. -/
theorem delete_event_carries_only_id :
    (delete ⟨⟨"a1", "http://example.com/page", "g1"⟩⟩).2.after_commit_events
      = [⟨"a1", "delete"⟩]
  ∧ (delete ⟨⟨"a1", "http://example.com/page", "g1"⟩⟩).2
      = (delete ⟨⟨"a1", "http://other.example/doc", "g2"⟩⟩).2 := by
  constructor <;> rfl

/-- An index request whose generated annotation route URL contains 123
also in the host part. -/
def idx_host123 : IndexRequest :=
  ⟨"http://123.example.com/annotations",
   fun i => String.append "http://123.example.com/a/" i,
   "http://123.example.com/search"⟩

/-- C9: the index handler templates the annotation URL by generating the
route URL at literal id 123 and replacing every occurrence of 123 by the
colon-id placeholder, so an occurrence of 123 elsewhere in the URL is
replaced too, and the read, update and delete entries share the same
templated URL. -/
theorem index_url_template (req : IndexRequest) :
    (index req).link_read.url = py_replace (req.route_url_annot "123") "123" ":id"
  ∧ (index req).link_update.url = (index req).link_read.url
  ∧ (index req).link_delete.url = (index req).link_read.url
  ∧ (index idx_host123).link_read.url = "http://:id.example.com/a/:id" := by
  refine ⟨rfl, rfl, rfl, ?_⟩
  decide

/-- C2: each mutating handler publishes exactly one event on success, on
the after-commit channel only; on a failure of payload parsing or schema
validation, the trace is empty: no event and no storage mutation. -/
theorem events_exactly_once_after_commit (creq : CreateRequest)
    (c : AnnotationResource) (ureq : UpdateRequest) :
    (exceptOk (create creq).1 = true →
      (create creq).2.after_commit_events.length = 1)
  ∧ (exceptOk (create creq).1 = false → (create creq).2 = Trace.empty)
  ∧ (create creq).2.immediate_events = []
  ∧ (exceptOk (update c ureq).1 = true →
      (update c ureq).2.after_commit_events.length = 1)
  ∧ (exceptOk (update c ureq).1 = false → (update c ureq).2 = Trace.empty)
  ∧ (update c ureq).2.immediate_events = []
  ∧ (delete c).2.after_commit_events.length = 1
  ∧ (delete c).2.immediate_events = [] := by
  refine ⟨?_, ?_, ?_, ?_, ?_, ?_, rfl, rfl⟩
  · unfold create
    cases json_payload creq.json_body with
    | error e => intro h; simp [exceptOk] at h
    | ok p =>
      dsimp only
      cases creq.validate p with
      | error v => intro h; simp [exceptOk] at h
      | ok s => intro _; rfl
  · unfold create
    cases json_payload creq.json_body with
    | error e => intro _; rfl
    | ok p =>
      dsimp only
      cases creq.validate p with
      | error v => intro _; rfl
      | ok s => intro h; simp [exceptOk] at h
  · unfold create
    cases json_payload creq.json_body with
    | error e => rfl
    | ok p =>
      dsimp only
      cases creq.validate p with
      | error v => rfl
      | ok s => rfl
  · unfold update
    cases json_payload ureq.json_body with
    | error e => intro h; simp [exceptOk] at h
    | ok p =>
      dsimp only
      cases ureq.validate c.annot.target_uri c.annot.groupid p with
      | error v => intro h; simp [exceptOk] at h
      | ok s => intro _; rfl
  · unfold update
    cases json_payload ureq.json_body with
    | error e => intro _; rfl
    | ok p =>
      dsimp only
      cases ureq.validate c.annot.target_uri c.annot.groupid p with
      | error v => intro _; rfl
      | ok s => intro h; simp [exceptOk] at h
  · unfold update
    cases json_payload ureq.json_body with
    | error e => rfl
    | ok p =>
      dsimp only
      cases ureq.validate c.annot.target_uri c.annot.groupid p with
      | error v => rfl
      | ok s => rfl

/-- A create request that parses and validates successfully. -/
def creq_ok : CreateRequest :=
  ⟨some "PAYLOAD", fun p => .ok p,
   fun _ => ⟨"a-new", "http://example.com/page", "g1"⟩⟩

/-- Witness for C2: one after-commit event on a concrete successful
create, empty trace on a concrete failing one. -/
theorem events_exactly_once_after_commit_witness :
    (create creq_ok).2.after_commit_events.length = 1
  ∧ (create creq_bad).2 = Trace.empty := by
  constructor
  · exact (events_exactly_once_after_commit creq_ok res0 ureq_bad).1 rfl
  · exact (events_exactly_once_after_commit creq_bad res0 ureq_bad).2.1 rfl

/-- C5: the search response presents the ids returned by the search
gateway index for index in the gateway order, with the gateway total, and
the replies key is present exactly when the popped separate-replies value
is truthy, again presenting the reply ids in gateway order. -/
theorem search_rows_in_gateway_order (req : SearchRequest) :
    (search req).1.total
      = (req.gateway (md_lookup req.params "_separate_replies")
          (md_erase req.params "_separate_replies")).total
  ∧ (∀ k : Nat, ((search req).1.rows)[k]?
      = ((req.gateway (md_lookup req.params "_separate_replies")
            (md_erase req.params "_separate_replies")).annotation_ids)[k]?.map
          (fun i => AnnotationJSONPresenter_asdict ⟨req.db i⟩))
  ∧ ((search req).1.replies).isSome
      = truthy (md_lookup req.params "_separate_replies")
  ∧ (search req).1.replies
      = (if truthy (md_lookup req.params "_separate_replies") then
          some (present_annotations req.db
            (req.gateway (md_lookup req.params "_separate_replies")
              (md_erase req.params "_separate_replies")).reply_ids)
        else none) := by
  unfold search md_copy md_pop
  cases ht : truthy (md_lookup req.params "_separate_replies") <;>
    simp [ht, present_annotations, fetch_ordered_annotations,
      List.getElem?_map, Function.comp_def]

/-- C6: the update handler validates against the update schema built from
the pre-update target URI and group id of the context: a validation
failure aborts with an empty trace (no persistence); the result depends on
the validator only through its value at those two parameters; and success
persists the record, publishes one after-commit update event carrying the
id of the new state, and returns the presented updated record. -/
theorem update_schema_and_event (c : AnnotationResource) (req : UpdateRequest) :
    (∀ p v, req.json_body = some p →
      req.validate c.annot.target_uri c.annot.groupid p = .error v →
      update c req = (.error (.validation v), Trace.empty))
  ∧ (∀ req' : UpdateRequest, req'.json_body = req.json_body →
      req'.update_annot = req.update_annot →
      (∀ p, req'.validate c.annot.target_uri c.annot.groupid p
        = req.validate c.annot.target_uri c.annot.groupid p) →
      update c req' = update c req)
  ∧ (∀ p s, req.json_body = some p →
      req.validate c.annot.target_uri c.annot.groupid p = .ok s →
      update c req
        = (.ok (AnnotationJSONPresenter_asdict ⟨req.update_annot c.annot.id s⟩),
          { created := [], updated := [c.annot.id], deleted := [],
            immediate_events := [],
            after_commit_events
              := [⟨(req.update_annot c.annot.id s).id, "update"⟩] })) := by
  refine ⟨?_, ?_, ?_⟩
  · intro p v hp hv
    unfold update
    rw [hp]
    simp [json_payload, hv]
  · intro req' hb hu hv
    unfold update
    rw [hb, hu]
    cases hj : req.json_body with
    | none => rfl
    | some p =>
      simp only [json_payload]
      rw [hv p]
  · intro p s hp hs
    unfold update
    rw [hp]
    simp [json_payload, hs, publish_annotation_event, notify_after_commit,
      Trace.empty]

/-- An update request that parses and validates successfully. -/
def ureq_ok : UpdateRequest :=
  ⟨some "PAYLOAD", fun _ _ p => .ok p,
   fun i _ => ⟨i, "http://example.com/new", "g2"⟩⟩

/-- Witness for C6 on a concrete successful update. -/
theorem update_schema_and_event_witness :
    update res0 ureq_ok
      = (.ok (AnnotationJSONPresenter_asdict
          ⟨⟨"a1", "http://example.com/new", "g2"⟩⟩),
        { created := [], updated := ["a1"], deleted := [],
          immediate_events := [],
          after_commit_events := [⟨"a1", "update"⟩] }) := by
  exact (update_schema_and_event res0 ureq_ok).2.2 "PAYLOAD" "PAYLOAD" rfl rfl

/-- C8: the search handler tests the raw popped string for Python
truthiness: any present, non-empty value enables reply separation, and an
absent parameter (or an empty string value) leaves it disabled. -/
theorem separate_replies_truthiness (req : SearchRequest) :
    (∀ v, md_lookup req.params "_separate_replies" = some v →
      ((search req).1.replies).isSome = !v.isEmpty)
  ∧ (md_lookup req.params "_separate_replies" = none →
      (search req).1.replies = none) := by
  constructor
  · intro v hv
    unfold search md_copy md_pop
    dsimp only
    rw [hv]
    cases he : v.isEmpty <;> simp [truthy, he]
  · intro hv
    unfold search md_copy md_pop
    dsimp only
    rw [hv]
    simp [truthy]

/-- A search request whose separate-replies parameter holds the string
value false, which is truthy in Python. -/
def sreq_false : SearchRequest :=
  ⟨[("q", "x"), ("_separate_replies", "false")],
   fun _ _ => ⟨2, ["i1", "i2"], ["r1"]⟩,
   fun i => ⟨i, "http://example.com/page", "g1"⟩⟩

/-- Witness for C8: the string value false enables reply separation. -/
theorem separate_replies_truthiness_witness :
    ((search sreq_false).1.replies).isSome = true := by
  have h := (separate_replies_truthiness sreq_false).1 "false" rfl
  simpa using h

/-- The search gateway used by the C10 witness. -/
def gw1 : Option String → MultiDict → SearchResult :=
  fun _ ps => ⟨ps.length, ["i1"], []⟩

/-- A search request holding the separate-replies parameter. -/
def sreq1 : SearchRequest :=
  ⟨[("_separate_replies", "1"), ("q", "x")], gw1,
   fun i => ⟨i, "http://example.com/page", "g1"⟩⟩

/-- C10: the search handler pops the separate-replies key from a copy of
the request params: the query the gateway receives never contains the key
(so two gateways agreeing on key-free queries make search agree), and the
request params collection is left unchanged. -/
theorem search_gateway_never_sees_flag (req : SearchRequest)
    (g : Option String → MultiDict → SearchResult)
    (h : ∀ sep ps, md_lookup ps "_separate_replies" = none →
      req.gateway sep ps = g sep ps) :
    search { req with gateway := g } = search req
  ∧ (search req).2 = req.params
  ∧ md_lookup (md_pop (md_copy req.params) "_separate_replies").2
      "_separate_replies" = none := by
  refine ⟨?_, rfl, md_lookup_erase req.params _⟩
  simp only [search, md_copy, md_pop]
  rw [h (md_lookup req.params "_separate_replies")
    (md_erase req.params "_separate_replies")
    (md_lookup_erase req.params "_separate_replies")]

/-- Witness for C10 at a concrete request. -/
theorem search_gateway_never_sees_flag_witness :
    search { sreq1 with gateway := gw1 } = search sreq1
  ∧ (search sreq1).2 = sreq1.params
  ∧ md_lookup (md_pop (md_copy sreq1.params) "_separate_replies").2
      "_separate_replies" = none :=
  search_gateway_never_sees_flag sreq1 gw1 (fun _ _ _ => rfl)

end Memex
